import Mathlib

/-!
Shallow embedding of the CS361 Fitness Tracker microservices:
`daily_agenda_service.py`, `overdue_risk_service.py` and
`weekly_summary_service.py`.

JSON request payloads are modelled by `JVal` (the services only ever receive
integral numbers, so no float payloads are modelled).  Python runtime
coercions (`bool(..)`, `int(..)`, `str(..)`) are modelled explicitly, and an
uncaught Python exception escaping a Flask handler (HTTP 500) is modelled by
`Outcome.crash`.
-/

set_option maxHeartbeats 1000000

/-- A JSON value as delivered by `request.get_json()`. -/
inductive JVal where
  | jnull
  | jbool (b : Bool)
  | jint (n : Int)
  | jstr (s : String)
  | jlist (xs : List JVal)
  | jdict (kvs : List (String × JVal))
deriving Repr

/-- A nonempty all-digit numeral (decimal). -/
def digitsToNat? (cs : List Char) : Option Nat :=
  if !cs.isEmpty && cs.all (fun c => c.isDigit) then
    some (cs.foldl (fun acc c => 10 * acc + (c.toNat - 48)) 0)
  else none

/-- Separator-joined concatenation (`sep.join(..)`). -/
def joinSep (sep : String) : List String → String
  | [] => ""
  | [x] => x
  | x :: xs => x ++ sep ++ joinSep sep xs

mutual

/-- Python `repr` of a JSON value (string escaping inside `repr` of a `str`
is not reproduced; no claim depends on it). -/
def pyRepr : JVal → String
  | .jnull => "None"
  | .jbool true => "True"
  | .jbool false => "False"
  | .jint n => toString n
  | .jstr s => "\x27" ++ s ++ "\x27"
  | .jlist xs => "[" ++ joinSep (", ") (pyReprList xs) ++ "]"
  | .jdict kvs => "\x7b" ++ joinSep (", ") (pyReprDict kvs) ++ "\x7d"

def pyReprList : List JVal → List String
  | [] => []
  | x :: xs => pyRepr x :: pyReprList xs

def pyReprDict : List (String × JVal) → List String
  | [] => []
  | (k, v) :: kvs => ("\x27" ++ k ++ "\x27: " ++ pyRepr v) :: pyReprDict kvs

end

/-- Python `str(..)` of a JSON value. -/
def pyStr : JVal → String
  | .jstr s => s
  | v => pyRepr v

/-- Python truthiness, `bool(..)`, of a JSON value. -/
def pyTruthy : JVal → Bool
  | .jnull => false
  | .jbool b => b
  | .jint n => n != 0
  | .jstr s => !s.isEmpty
  | .jlist xs => !xs.isEmpty
  | .jdict kvs => !kvs.isEmpty

/-- Python `int(s)` on a string: optional sign and a nonempty digit string,
surrounded by optional whitespace (underscore digit grouping is not
modelled).  `none` models a raised `ValueError`. -/
def pyIntOfStr (s : String) : Option Int :=
  let t := ((s.data.dropWhile (fun c => c.isWhitespace)).reverse.dropWhile
    (fun c => c.isWhitespace)).reverse
  match t with
  | [] => none
  | c :: rest =>
    if c = '-' then (digitsToNat? rest).map (fun n => -(n : Int))
    else if c = '+' then (digitsToNat? rest).map (fun n => (n : Int))
    else (digitsToNat? t).map (fun n => (n : Int))

/-- Python `int(v)` on a JSON value; `none` models a raised
`TypeError`/`ValueError`. -/
def pyInt : JVal → Option Int
  | .jint n => some n
  | .jbool b => some (if b then 1 else 0)
  | .jstr s => pyIntOfStr s
  | _ => none

/-- `d[k]` / `k in d` lookup on a JSON object (JSON objects delivered by the
json parser have unique keys, so first-match lookup is exact). -/
def dictFind (kvs : List (String × JVal)) (k : String) : Option JVal :=
  (kvs.find? (fun p => p.1 = k)).map (fun p => p.2)

/-- Python `d.get(k, dflt)`. -/
def dictGetD (kvs : List (String × JVal)) (k : String) (dflt : JVal) : JVal :=
  (dictFind kvs k).getD dflt

/-- Python `for x in v`: lists iterate their elements, strings their
characters, dicts their keys; other values raise `TypeError` (`none`). -/
def pyIter : JVal → Option (List JVal)
  | .jlist xs => some xs
  | .jstr s => some (s.toList.map (fun c => .jstr (String.singleton c)))
  | .jdict kvs => some (kvs.map (fun p => .jstr p.1))
  | _ => none

/-- Result of one Flask handler invocation: HTTP 200 with a payload, an
HTTP 400 with a structured error body, or an uncaught exception (HTTP 500). -/
inductive Outcome (α : Type) where
  | ok (a : α)
  | badRequest (error msg : String)
  | crash (msg : String)
deriving Repr

/-- `true` exactly on the uncaught-exception outcome. -/
def Outcome.isCrash : Outcome α → Bool
  | .crash _ => true
  | _ => false

/-- A Python `datetime.date` triple (validity is a separate predicate). -/
structure Date where
  year : Nat
  month : Nat
  day : Nat
deriving DecidableEq, Repr

/-- Gregorian leap-year test (`calendar.isleap`, used by `datetime`). -/
def isLeap (y : Nat) : Bool :=
  (y % 4 == 0 && y % 100 != 0) || y % 400 == 0

/-- `datetime._days_in_month`. -/
def daysInMonth (y m : Nat) : Nat :=
  if m = 2 then (if isLeap y then 29 else 28)
  else if m = 4 || m = 6 || m = 9 || m = 11 then 30
  else 31

/-- The triples `datetime.date` accepts (what `date(y, m, d)` does not reject). -/
def Date.Valid (d : Date) : Prop :=
  1 ≤ d.year ∧ 1 ≤ d.month ∧ d.month ≤ 12 ∧ 1 ≤ d.day ∧ d.day ≤ daysInMonth d.year d.month

instance : DecidablePred Date.Valid := fun d =>
  inferInstanceAs (Decidable (1 ≤ d.year ∧ 1 ≤ d.month ∧ d.month ≤ 12 ∧ 1 ≤ d.day ∧
    d.day ≤ daysInMonth d.year d.month))

/-- `datetime._days_before_year`: days between 0001-01-01 and January 1st of
year `y` in the proleptic Gregorian calendar. -/
def daysBeforeYear (y : Nat) : Nat :=
  365 * (y - 1) + (y - 1) / 4 + (y - 1) / 400 - (y - 1) / 100

/-- `datetime._days_before_month`: days in year `y` preceding month `m`. -/
def daysBeforeMonth (y m : Nat) : Nat :=
  (match m with
   | 1 => 0 | 2 => 31 | 3 => 59 | 4 => 90 | 5 => 120 | 6 => 151
   | 7 => 181 | 8 => 212 | 9 => 243 | 10 => 273 | 11 => 304 | 12 => 334
   | _ => 0)
  + (if 2 < m && isLeap y then 1 else 0)

/-- `date.toordinal()`: 0001-01-01 is ordinal 1. -/
def Date.toordinal (d : Date) : Nat :=
  daysBeforeYear d.year + daysBeforeMonth d.year d.month + d.day

/-- Python `date.__lt__` (tuple comparison on `(year, month, day)`). -/
def dateLt (a b : Date) : Bool :=
  a.year < b.year ||
    (a.year == b.year &&
      (a.month < b.month || (a.month == b.month && a.day < b.day)))

/-- Python `date.__le__` (tuple comparison on `(year, month, day)`). -/
def dateLe (a b : Date) : Bool :=
  a.year < b.year ||
    (a.year == b.year &&
      (a.month < b.month || (a.month == b.month && a.day ≤ b.day)))

/-- Zero-pad a numeral to two digits. -/
def pad2 (n : Nat) : String :=
  if n < 10 then "0" ++ toString n else toString n

/-- Zero-pad a numeral to four digits. -/
def pad4 (n : Nat) : String :=
  if n < 10 then "000" ++ toString n
  else if n < 100 then "00" ++ toString n
  else if n < 1000 then "0" ++ toString n
  else toString n

/-- `date.isoformat()`. -/
def Date.isoformat (d : Date) : String :=
  pad4 d.year ++ "-" ++ pad2 d.month ++ "-" ++ pad2 d.day

/-- `datetime.strptime(s, "%Y-%m-%d").date()` wrapped in the services'
try/except: exactly four year digits, one or two month and day digits, and
the triple must be accepted by the `date` constructor. -/
def parse_date_yyyy_mm_dd (s : String) : Option Date :=
  match s.data.splitOn '-' with
  | [ys, ms, ds] =>
    if ys.length = 4 && (1 ≤ ms.length && ms.length ≤ 2) && (1 ≤ ds.length && ds.length ≤ 2) then
      match digitsToNat? ys, digitsToNat? ms, digitsToNat? ds with
      | some y, some m, some d =>
        if Date.Valid ⟨y, m, d⟩ then some ⟨y, m, d⟩ else none
      | _, _, _ => none
    else none
  | _ => none

/-- `date.fromordinal` (inverse of `toordinal`), via the standard
civil-from-days algorithm; only executed, never reasoned about. -/
def dateFromOrdinal (n : Int) : Date :=
  let z : Nat := (n + 305).toNat
  let era := z / 146097
  let doe := z % 146097
  let yoe := (doe - doe / 1460 + doe / 36524 - doe / 146096) / 365
  let doy := doe - (365 * yoe + yoe / 4 - yoe / 100)
  let mp := (5 * doy + 2) / 153
  let d := doy - (153 * mp + 2) / 5 + 1
  let m := if mp < 10 then mp + 3 else mp - 9
  ⟨(if m ≤ 2 then yoe + era * 400 + 1 else yoe + era * 400), m, d⟩

/-- `d + timedelta(days = k)`. -/
def Date.addDays (d : Date) (k : Int) : Date :=
  dateFromOrdinal ((d.toordinal : Int) + k)

/-- `date.weekday()` (Monday = 0). -/
def Date.weekday (d : Date) : Nat :=
  (d.toordinal + 6) % 7

/-- A Python `datetime.datetime` (components beyond seconds are not
modelled; the services never read them). -/
structure DateTime where
  date : Date
  hour : Nat
  minute : Nat
  second : Nat
deriving DecidableEq, Repr

/-- Decimal digit check for a character list. -/
def allDigits (cs : List Char) : Bool :=
  cs.all (fun c => c.isDigit)

/-- Strict ten-character `YYYY-MM-DD` date (the date part accepted by
`datetime.fromisoformat`). -/
def parse_iso_date10 (s : String) : Option Date :=
  match s.toList with
  | [y1, y2, y3, y4, h1, m1, m2, h2, d1, d2] =>
    if allDigits [y1, y2, y3, y4, m1, m2, d1, d2] && h1 = '-' && h2 = '-' then
      let y := (digitsToNat? [y1, y2, y3, y4]).getD 0
      let m := (digitsToNat? [m1, m2]).getD 0
      let d := (digitsToNat? [d1, d2]).getD 0
      if Date.Valid ⟨y, m, d⟩ then some ⟨y, m, d⟩ else none
    else none
  | _ => none

/-- `HH:MM` or `HH:MM:SS` time-of-day (the time forms accepted by
`datetime.fromisoformat` that the services can receive; fractional seconds
and offsets are not modelled). -/
def parse_iso_time (s : String) : Option (Nat × Nat × Nat) :=
  match s.toList with
  | [a1, a2, c1, b1, b2] =>
    if allDigits [a1, a2, b1, b2] && c1 = ':' then
      let h := (digitsToNat? [a1, a2]).getD 0
      let mi := (digitsToNat? [b1, b2]).getD 0
      if h ≤ 23 && mi ≤ 59 then some (h, mi, 0) else none
    else none
  | [a1, a2, c1, b1, b2, c2, s1, s2] =>
    if allDigits [a1, a2, b1, b2, s1, s2] && c1 = ':' && c2 = ':' then
      let h := (digitsToNat? [a1, a2]).getD 0
      let mi := (digitsToNat? [b1, b2]).getD 0
      let se := (digitsToNat? [s1, s2]).getD 0
      if h ≤ 23 && mi ≤ 59 && se ≤ 59 then some (h, mi, se) else none
    else none
  | _ => none

/-- `datetime.fromisoformat(s)`: a strict date, optionally followed by a
single separator character and a time-of-day. -/
def fromisoformat (s : String) : Option DateTime :=
  if s.data.length = 10 then
    (parse_iso_date10 s).map (fun d => ⟨d, 0, 0, 0⟩)
  else if 12 ≤ s.data.length then
    match parse_iso_date10 (String.mk (s.data.take 10)),
        parse_iso_time (String.mk (s.data.drop 11)) with
    | some d, some (h, mi, se) => some ⟨d, h, mi, se⟩
    | _, _ => none
  else none

namespace DailyAgenda

/-- `parse_time` (`datetime.strptime(t_str, "%H:%M")`), returned as minutes
since midnight; `%H` and `%M` each accept one or two digits. -/
def parse_time (s : String) : Option Nat :=
  match s.data.splitOn ':' with
  | [hs, ms] =>
    if (1 ≤ hs.length && hs.length ≤ 2) && (1 ≤ ms.length && ms.length ≤ 2) then
      match digitsToNat? hs, digitsToNat? ms with
      | some h, some m => if h ≤ 23 && m ≤ 59 then some (60 * h + m) else none
      | _, _ => none
    else none
  | _ => none

/-- `strftime("%H:%M")` on a time held as minutes since midnight. -/
def fmtTime (t : Int) : String :=
  pad2 ((t.emod 1440).toNat / 60) ++ ":" ++ pad2 ((t.emod 1440).toNat % 60)

/-- An entry appended to `blocks` in `schedule_tasks`; `start`/`end` are kept
as minutes (the source stores them already formatted by `strftime`; the
endpoint model applies `fmtTime` when shaping the response, which is lossless
because every emitted time lies in `[0, 1440)`). -/
structure Block where
  task_id : JVal
  title : JVal
  start : Int
  stop : Int
deriving Repr

/-- An entry appended to `unscheduled` in `schedule_tasks`. -/
structure UnschedTask where
  task_id : JVal
  title : JVal
deriving Repr

/-- The `for t in tasks` loop of `schedule_tasks`, with the cursor `current`
threaded explicitly.  `Except.error` models an uncaught Python exception
(non-dict task, unparsable `duration_minutes`, missing `id`/`title`).  In the
source the `t["id"]`/`t["title"]` accesses sit inside each branch of the
fit test; both branches perform exactly the same two accesses, so they are
hoisted above the test here. -/
def schedule_aux (day_end : Int) : List JVal → Int → Except String (List Block × List UnschedTask)
  | [], _ => .ok ([], [])
  | t :: ts, current =>
    match t with
    | .jdict kvs =>
      match pyInt (dictGetD kvs ("duration_minutes") (.jint 0)) with
      | none => .error ("ValueError: invalid duration_minutes")
      | some duration =>
        if duration ≤ 0 then schedule_aux day_end ts current
        else
          match dictFind kvs ("id"), dictFind kvs ("title") with
          | some i, some ti =>
            if current + duration ≤ day_end then
              match schedule_aux day_end ts (current + duration) with
              | .error e => .error e
              | .ok (bs, us) => .ok (⟨i, ti, current, current + duration⟩ :: bs, us)
            else
              match schedule_aux day_end ts current with
              | .error e => .error e
              | .ok (bs, us) => .ok (bs, ⟨i, ti⟩ :: us)
          | _, _ => .error ("KeyError")
    | _ => .error ("AttributeError: no attribute get")

/-- `schedule_tasks(date_str, workday_start, workday_end, tasks)` (the unused
`date_str` parameter is dropped).  The time strings are parsed first, as in
the source; the endpoint has already validated them when it calls this. -/
def schedule_tasks (workday_start workday_end : String) (tasks : List JVal) :
    Except String (List Block × List UnschedTask) :=
  match parse_time workday_start, parse_time workday_end with
  | some day_start, some day_end => schedule_aux (day_end : Int) tasks (day_start : Int)
  | _, _ => .error ("ValueError: time data does not match format")

/-- A `blocks` entry as it appears in the JSON response (the constant
`"unscheduled": False` field is omitted). -/
structure BlockOut where
  task_id : JVal
  title : JVal
  start : String
  stop : String
deriving Repr

/-- The body of the `/agenda/generate` request. -/
structure AgendaRequest where
  date : Option JVal
  workday_start : Option JVal
  workday_end : Option JVal
  tasks : Option JVal
deriving Repr

/-- The 200 response of `/agenda/generate`. -/
structure AgendaResponse where
  date : JVal
  blocks : List BlockOut
  unscheduled : List UnschedTask
deriving Repr

/-- The `generate_agenda` Flask handler. -/
def generate_agenda (data : AgendaRequest) : Outcome AgendaResponse :=
  let date := data.date.getD .jnull
  let workday_start := data.workday_start.getD .jnull
  let workday_end := data.workday_end.getD .jnull
  let tasks := data.tasks.getD (.jlist [])
  if !pyTruthy date || !pyTruthy workday_start || !pyTruthy workday_end then
    .badRequest ("error") ("date, workday_start, and workday_end are required")
  else
    match workday_start, workday_end with
    | .jstr ss, .jstr es =>
      match parse_time ss, parse_time es with
      | some _, some _ =>
        match pyIter tasks with
        | none => .crash ("TypeError: object is not iterable")
        | some taskList =>
          match schedule_tasks ss es taskList with
          | .error e => .crash e
          | .ok (bs, us) =>
            .ok ⟨date, bs.map (fun b => ⟨b.task_id, b.title, fmtTime b.start, fmtTime b.stop⟩), us⟩
      | _, _ => .badRequest ("error") ("workday_start and workday_end must be HH:MM")
    | _, _ => .badRequest ("error") ("workday_start and workday_end must be HH:MM")

end DailyAgenda

namespace OverdueRisk

/-- A validated item as appended by `_validate_items`. -/
structure CItem where
  id : String
  title : String
  dueDate : Date
  completed : Bool
deriving DecidableEq, Repr

/-- `_parse_today`: use the provided value when it is a parseable date
string, otherwise fall back to the ambient current date (`date.today()` is
passed in as `sysToday`).  A falsy or non-string value also falls back:
`strptime` raises on a non-string, `_parse_date_yyyy_mm_dd` catches it. -/
def _parse_today (sysToday : Date) : Option JVal → Date
  | some (.jstr s) => (parse_date_yyyy_mm_dd s).getD sysToday
  | _ => sysToday

/-- One iteration of the `_validate_items` loop body for the item at index
`idx` (the source inlines this in the loop). -/
def validate_item (idx : Nat) : JVal → Except String CItem
  | .jdict kvs =>
    let missing := ["id", "title", "dueDate", "completed"].filter
      (fun k => (dictFind kvs k).isNone)
    if !missing.isEmpty then
      let ms := joinSep (", ") missing
      .error (s!"Item at index {idx} missing field(s): {ms}")
    else
      match parse_date_yyyy_mm_dd (pyStr (dictGetD kvs ("dueDate") .jnull)) with
      | none =>
        let idStr := pyStr (dictGetD kvs ("id") .jnull)
        .error (s!"Item {idStr} has invalid dueDate (expected YYYY-MM-DD).")
      | some d =>
        .ok ⟨pyStr (dictGetD kvs ("id") .jnull), pyStr (dictGetD kvs ("title") .jnull),
             d, pyTruthy (dictGetD kvs ("completed") .jnull)⟩
  | _ => .error (s!"Item at index {idx} must be an object.")

/-- The `for idx, item in enumerate(raw)` loop of `_validate_items`. -/
def validate_items_go (idx : Nat) : List JVal → Except String (List CItem)
  | [] => .ok []
  | v :: vs =>
    match validate_item idx v with
    | .error e => .error e
    | .ok it =>
      match validate_items_go (idx + 1) vs with
      | .error e => .error e
      | .ok its => .ok (it :: its)

/-- `_validate_items(raw)`; `raw` is `data.get("items")`. -/
def _validate_items : Option JVal → Except String (List CItem)
  | some (.jlist xs) => validate_items_go 0 xs
  | _ => .error ("Field \x27items\x27 must be a list.")

/-- An `overdue` response entry (the constant `"status": "overdue"` field is
omitted). -/
structure OverdueEntry where
  id : String
  title : String
  dueDate : String
  daysOverdue : Int
deriving DecidableEq, Repr

/-- The `for it in items` loop of `find_overdue`. -/
def overdue_loop (today : Date) : List CItem → List OverdueEntry
  | [] => []
  | it :: rest =>
    if !it.completed && dateLt it.dueDate today then
      ⟨it.id, it.title, it.dueDate.isoformat,
        (today.toordinal : Int) - (it.dueDate.toordinal : Int)⟩ :: overdue_loop today rest
    else overdue_loop today rest

/-- The body of the `/v1/overdue` and `/v1/atrisk` requests. -/
structure RiskRequest where
  items : Option JVal
  today : Option JVal
  riskWindowDays : Option JVal
deriving Repr

/-- The 200 response of `/v1/overdue`. -/
structure OverdueResponse where
  today : String
  overdue : List OverdueEntry
deriving DecidableEq, Repr

/-- The `find_overdue` Flask handler (`sysToday` is the ambient
`date.today()`). -/
def find_overdue (sysToday : Date) (data : RiskRequest) : Outcome OverdueResponse :=
  match _validate_items data.items with
  | .error e => .badRequest ("INVALID_ITEMS") e
  | .ok items =>
    let today := _parse_today sysToday data.today
    .ok ⟨today.isoformat, overdue_loop today items⟩

/-- An `atRisk` response entry. -/
structure AtRiskEntry where
  id : String
  title : String
  dueDate : String
  daysRemaining : Int
  risk : String
deriving DecidableEq, Repr

/-- The `for it in items` loop of `find_at_risk`. -/
def at_risk_loop (today : Date) (risk_window : Int) : List CItem → List AtRiskEntry
  | [] => []
  | it :: rest =>
    if it.completed then at_risk_loop today risk_window rest
    else
      let days_remaining := (it.dueDate.toordinal : Int) - (today.toordinal : Int)
      if 0 ≤ days_remaining && days_remaining ≤ risk_window then
        ⟨it.id, it.title, it.dueDate.isoformat, days_remaining,
          if days_remaining = 0 then ("high")
          else if days_remaining ≤ 2 then ("medium")
          else ("low")⟩ :: at_risk_loop today risk_window rest
      else at_risk_loop today risk_window rest

/-- The 200 response of `/v1/atrisk`. -/
structure AtRiskResponse where
  today : String
  atRisk : List AtRiskEntry
deriving DecidableEq, Repr

/-- The `find_at_risk` Flask handler.  `int(data.get("riskWindowDays", 5))`
is uncaught: an unparsable value crashes the handler. -/
def find_at_risk (sysToday : Date) (data : RiskRequest) : Outcome AtRiskResponse :=
  match _validate_items data.items with
  | .error e => .badRequest ("INVALID_ITEMS") e
  | .ok items =>
    let today := _parse_today sysToday data.today
    match (match data.riskWindowDays with | none => some 5 | some v => pyInt v) with
    | none => .crash ("TypeError or ValueError: int() on riskWindowDays")
    | some risk_window => .ok ⟨today.isoformat, at_risk_loop today risk_window items⟩

end OverdueRisk

namespace WeeklySummary

/-- `_parse_iso_datetime`: strip one trailing `Z`, then
`datetime.fromisoformat`. -/
def _parse_iso_datetime (s : String) : Option DateTime :=
  fromisoformat (if s.data.getLast? = some 'Z' then String.mk s.data.dropLast else s)

/-- A validated item as appended by `_validate_items` in the weekly summary
service. -/
structure SItem where
  id : String
  title : String
  completedAt : DateTime
  durationMin : Int
  category : String
deriving DecidableEq, Repr

/-- One iteration of the weekly `_validate_items` loop body for the item at
index `idx`. -/
def validate_sitem (idx : Nat) : JVal → Except String SItem
  | .jdict kvs =>
    let missing := ["id", "completedAt", "durationMin"].filter
      (fun k => (dictFind kvs k).isNone)
    if !missing.isEmpty then
      let ms := joinSep (", ") missing
      .error (s!"Item at index {idx} missing field(s): {ms}")
    else
      match _parse_iso_datetime (pyStr (dictGetD kvs ("completedAt") .jnull)) with
      | none =>
        let idStr := pyStr (dictGetD kvs ("id") .jnull)
        .error (s!"Item {idStr} has invalid completedAt timestamp.")
      | some ts =>
        match pyInt (dictGetD kvs ("durationMin") .jnull) with
        | none =>
          let idStr := pyStr (dictGetD kvs ("id") .jnull)
          .error (s!"Item {idStr} has invalid durationMin.")
        | some duration =>
          .ok ⟨pyStr (dictGetD kvs ("id") .jnull),
               pyStr (dictGetD kvs ("title") (.jstr "")),
               ts, duration,
               pyStr (dictGetD kvs ("category") (.jstr "Uncategorized"))⟩
  | _ => .error (s!"Item at index {idx} must be an object.")

/-- The `for idx, item in enumerate(raw)` loop of the weekly
`_validate_items`. -/
def validate_sitems_go (idx : Nat) : List JVal → Except String (List SItem)
  | [] => .ok []
  | v :: vs =>
    match validate_sitem idx v with
    | .error e => .error e
    | .ok it =>
      match validate_sitems_go (idx + 1) vs with
      | .error e => .error e
      | .ok its => .ok (it :: its)

/-- The weekly `_validate_items(raw)`. -/
def _validate_items : Option JVal → Except String (List SItem)
  | some (.jlist xs) => validate_sitems_go 0 xs
  | _ => .error ("Field \x27items\x27 must be a list.")

/-- `_week_bounds(provided_start, provided_end)` with the ambient
`date.today()` passed in as `sysToday`. -/
def _week_bounds (sysToday : Date) (ps pe : Option JVal) : Date × Date :=
  let start0 : Option Date :=
    if (ps.map pyTruthy).getD false then
      match ps with
      | some (.jstr s) => parse_date_yyyy_mm_dd s
      | _ => none
    else some (sysToday.addDays (-(sysToday.weekday : Int)))
  let start := start0.getD sysToday
  let stop :=
    if (pe.map pyTruthy).getD false then
      match pe with
      | some (.jstr s) => (parse_date_yyyy_mm_dd s).getD (start.addDays 6)
      | _ => start.addDays 6
    else start.addDays 6
  (start, stop)

/-- One `defaultdict` bump shared by `by_cat_counts[cat] += 1` and
`by_cat_dur[cat] += duration`: the two dicts acquire keys in the same order,
so they are modelled as one insertion-ordered association list holding the
pair (count, duration sum). -/
def bump (cat : String) (dur : Int) : List (String × Nat × Int) → List (String × Nat × Int)
  | [] => [(cat, 1, dur)]
  | (c, n, d) :: rest =>
    if c = cat then (c, n + 1, d + dur) :: rest
    else (c, n, d) :: bump cat dur rest

/-- Lookup in the insertion-ordered `byCategory` association list. -/
def lookupCat (cat : String) (bc : List (String × Nat × Int)) : Option (Nat × Int) :=
  (bc.find? (fun p => p.1 = cat)).map (fun p => p.2)

/-- The inclusion test of the aggregation loop:
`week_start <= it["completedAt"].date() <= week_end`. -/
def inWindow (week_start week_end : Date) (it : SItem) : Bool :=
  dateLe week_start it.completedAt.date && dateLe it.completedAt.date week_end

/-- The aggregation loop of `weekly_summary`: accumulator is
`(total_completed, total_duration, by_category)`. -/
def summary_fold (week_start week_end : Date) :
    List SItem → Nat × Int × List (String × Nat × Int) → Nat × Int × List (String × Nat × Int)
  | [], acc => acc
  | it :: rest, (tc, td, bc) =>
    if inWindow week_start week_end it then
      summary_fold week_start week_end rest (tc + 1, td + it.durationMin, bump it.category it.durationMin bc)
    else
      summary_fold week_start week_end rest (tc, td, bc)

/-- The body of the `/v1/weekly-summary` request. -/
structure WeeklyRequest where
  items : Option JVal
  weekStart : Option JVal
  weekEnd : Option JVal
deriving Repr

/-- The 200 response of `/v1/weekly-summary`. -/
structure WeeklyResponse where
  weekStart : String
  weekEnd : String
  totalCompleted : Nat
  totalDurationMin : Int
  byCategory : List (String × Nat × Int)
deriving DecidableEq, Repr

/-- The `weekly_summary` Flask handler. -/
def weekly_summary (sysToday : Date) (data : WeeklyRequest) : Outcome WeeklyResponse :=
  match _validate_items data.items with
  | .error e => .badRequest ("INVALID_ITEMS") e
  | .ok items =>
    let (week_start, week_end) := _week_bounds sysToday data.weekStart data.weekEnd
    let (tc, td, bc) := summary_fold week_start week_end items (0, 0, [])
    .ok ⟨week_start.isoformat, week_end.isoformat, tc, td, bc⟩

end WeeklySummary

/-! ## Calendar arithmetic facts

Python's `date` compares by `(year, month, day)` tuples while `timedelta`
arithmetic subtracts ordinals; these lemmas connect the two. -/

theorem daysBeforeYear_succ (y : Nat) (hy : 1 ≤ y) :
    daysBeforeYear (y + 1) = daysBeforeYear y + 365 + (if isLeap y then 1 else 0) := by
  unfold daysBeforeYear
  split_ifs with h
  · simp only [isLeap, Bool.or_eq_true, Bool.and_eq_true, beq_iff_eq, bne_iff_ne, ne_eq] at h
    omega
  · simp only [isLeap, Bool.or_eq_true, Bool.and_eq_true, beq_iff_eq, bne_iff_ne, ne_eq,
      not_or, not_and, Decidable.not_not] at h
    omega

theorem dbm_mono (y m m' : Nat) (h1 : 1 ≤ m) (h : m < m') (h12 : m' ≤ 12) :
    daysBeforeMonth y m + daysInMonth y m ≤ daysBeforeMonth y m' := by
  have hub : m ≤ 11 := by omega
  have hlb : 2 ≤ m' := by omega
  interval_cases m <;> interval_cases m' <;>
    cases hL : isLeap y <;>
      simp_arith [daysBeforeMonth, daysInMonth, hL]

theorem dbm_add_dim_le (y m : Nat) (h1 : 1 ≤ m) (h2 : m ≤ 12) :
    daysBeforeMonth y m + daysInMonth y m ≤ 365 + (if isLeap y then 1 else 0) := by
  interval_cases m <;> cases hL : isLeap y <;>
    simp_arith [daysBeforeMonth, daysInMonth, hL]

theorem daysBeforeYear_mono (y y' : Nat) (hy : 1 ≤ y) (h : y ≤ y') :
    daysBeforeYear y ≤ daysBeforeYear y' := by
  induction y', h using Nat.le_induction with
  | base => exact le_refl _
  | succ n hn ih =>
    have := daysBeforeYear_succ n (le_trans hy hn)
    omega

/-- Tuple order on valid dates implies strict ordinal order: the heart of
`daysOverdue = (today - dueDate).days` being positive for overdue items. -/
theorem toordinal_lt_toordinal (a b : Date) (ha : a.Valid) (hb : b.Valid)
    (h : dateLt a b = true) : a.toordinal < b.toordinal := by
  obtain ⟨ha1, ha2, ha3, ha4, ha5⟩ := ha
  obtain ⟨hb1, hb2, hb3, hb4, hb5⟩ := hb
  simp only [dateLt, Bool.or_eq_true, Bool.and_eq_true, beq_iff_eq, decide_eq_true_eq] at h
  unfold Date.toordinal
  rcases h with hy | ⟨hy, hm | ⟨hm, hd⟩⟩
  · have hA : daysBeforeMonth a.year a.month + a.day ≤ 365 + (if isLeap a.year then 1 else 0) :=
      le_trans (Nat.add_le_add_left ha5 _) (dbm_add_dim_le a.year a.month ha2 ha3)
    have hB : daysBeforeYear (a.year + 1) ≤ daysBeforeYear b.year :=
      daysBeforeYear_mono (a.year + 1) b.year (by omega) (by omega)
    have hC := daysBeforeYear_succ a.year ha1
    omega
  · have hA : daysBeforeMonth a.year a.month + a.day ≤ daysBeforeMonth a.year b.month :=
      le_trans (Nat.add_le_add_left ha5 _) (dbm_mono a.year a.month b.month ha2 hm hb3)
    rw [hy] at hA ⊢
    omega
  · rw [hy, hm]
    omega

/-- Dates produced by `parse_date_yyyy_mm_dd` are valid. -/
theorem parse_date_valid (s : String) (d : Date)
    (h : parse_date_yyyy_mm_dd s = some d) : d.Valid := by
  unfold parse_date_yyyy_mm_dd at h
  split at h
  · split at h
    · split at h
      · split at h
        · simp only [Option.some.injEq] at h
          subst h
          assumption
        · exact absurd h (by simp)
      · exact absurd h (by simp)
    · exact absurd h (by simp)
  · exact absurd h (by simp)

/-! ## Scheduler lemmas -/

namespace DailyAgenda

/-- Every successful run of the scheduling loop started at cursor `current`
emits blocks inside `[current, day_end]`, each of positive width, with
starts never before the end of the previous block. -/
theorem schedule_aux_invariant (day_end : Int) (tasks : List JVal) :
    ∀ (current : Int) (bs : List Block) (us : List UnschedTask),
    schedule_aux day_end tasks current = .ok (bs, us) →
    (∀ b ∈ bs, current ≤ b.start ∧ b.start < b.stop ∧ b.stop ≤ day_end) ∧
    List.Chain' (fun x y => x.stop ≤ y.start) bs := by
  induction tasks with
  | nil =>
    intro current bs us h
    simp only [schedule_aux, Except.ok.injEq, Prod.mk.injEq] at h
    obtain ⟨rfl, rfl⟩ := h
    simp
  | cons t ts ih =>
    intro current bs us h
    unfold schedule_aux at h
    split at h
    · rename_i kvs
      split at h
      · exact absurd h (by simp)
      · rename_i duration hdur
        split at h
        · exact ih current bs us h
        · rename_i hpos
          split at h
          · rename_i i ti hi hti
            split at h
            · rename_i hfit
              split at h
              · exact absurd h (by simp)
              · rename_i bs' us' hrec
                simp only [Except.ok.injEq, Prod.mk.injEq] at h
                obtain ⟨rfl, rfl⟩ := h
                obtain ⟨ihmem, ihchain⟩ := ih (current + duration) _ _ hrec
                constructor
                · intro b hb
                  rcases List.mem_cons.mp hb with rfl | hb'
                  · exact ⟨le_refl _, by show current < current + duration; omega, hfit⟩
                  · have := ihmem b hb'
                    exact ⟨by omega, this.2.1, this.2.2⟩
                · rw [List.chain'_cons']
                  refine ⟨?_, ihchain⟩
                  intro y hy
                  exact (ihmem y (List.mem_of_mem_head? hy)).1
            · rename_i hnofit
              split at h
              · exact absurd h (by simp)
              · rename_i bs' us' hrec
                simp only [Except.ok.injEq, Prod.mk.injEq] at h
                obtain ⟨rfl, rfl⟩ := h
                exact ih current _ _ hrec
          · exact absurd h (by simp)
    · exact absurd h (by simp)

/-- The unscheduled entry a positive-duration task contributes when nothing
fits (used to state the degenerate-window behavior). -/
def unschedOf : JVal → Option UnschedTask
  | .jdict kvs =>
    match pyInt (dictGetD kvs ("duration_minutes") (.jint 0)) with
    | some duration =>
      if duration ≤ 0 then none
      else
        match dictFind kvs ("id"), dictFind kvs ("title") with
        | some i, some ti => some ⟨i, ti⟩
        | _, _ => none
    | none => none
  | _ => none

/-- Started at or past `day_end`, a successful scheduling run emits no block
and reports exactly the positive-duration tasks, in order, as unscheduled. -/
theorem schedule_aux_degenerate (day_end : Int) (tasks : List JVal) :
    ∀ (current : Int), day_end ≤ current →
    ∀ bs us, schedule_aux day_end tasks current = .ok (bs, us) →
    bs = [] ∧ us = tasks.filterMap unschedOf := by
  induction tasks with
  | nil =>
    intro c hc bs us h
    simp only [schedule_aux, Except.ok.injEq, Prod.mk.injEq] at h
    obtain ⟨rfl, rfl⟩ := h
    simp
  | cons t ts ih =>
    intro c hc bs us h
    unfold schedule_aux at h
    split at h
    · rename_i kvs
      split at h
      · exact absurd h (by simp)
      · rename_i duration hdur
        split at h
        · rename_i hle
          obtain ⟨h1, h2⟩ := ih c hc bs us h
          subst h1 h2
          simp [List.filterMap_cons, unschedOf, hdur, hle]
        · rename_i hpos
          split at h
          · rename_i i ti hi hti
            split at h
            · rename_i hfit
              exact absurd hfit (by omega)
            · split at h
              · exact absurd h (by simp)
              · rename_i bs' us' hrec
                simp only [Except.ok.injEq, Prod.mk.injEq] at h
                obtain ⟨rfl, rfl⟩ := h
                obtain ⟨h1, h2⟩ := ih c hc _ _ hrec
                subst h1 h2
                simp [List.filterMap_cons, unschedOf, hdur, hi, hti, if_neg hpos]
          · exact absurd h (by simp)
    · exact absurd h (by simp)

/-- A well-formed positive-duration task whose candidate end exceeds the
workday end is emitted as unscheduled and the loop continues at the same
cursor (the non-advancing skip). -/
theorem schedule_aux_skip (day_end : Int) (t : JVal) (ts : List JVal) (current : Int)
    (kvs : List (String × JVal)) (duration : Int) (i ti : JVal)
    (ht : t = .jdict kvs)
    (hdur : pyInt (dictGetD kvs ("duration_minutes") (.jint 0)) = some duration)
    (hpos : 0 < duration) (hnofit : day_end < current + duration)
    (hi : dictFind kvs ("id") = some i) (hti : dictFind kvs ("title") = some ti)
    (bs : List Block) (us : List UnschedTask)
    (hrec : schedule_aux day_end ts current = .ok (bs, us)) :
    schedule_aux day_end (t :: ts) current = .ok (bs, ⟨i, ti⟩ :: us) := by
  subst ht
  unfold schedule_aux
  simp only [hdur, hi, hti, hrec]
  rw [if_neg (by omega : ¬ duration ≤ 0)]
  rw [if_neg (by omega : ¬ current + duration ≤ day_end)]

end DailyAgenda

/-! ## Classifier lemmas -/

namespace OverdueRisk

/-- What one item contributes to the `overdue` list. -/
def overdueOf (today : Date) (it : CItem) : Option OverdueEntry :=
  if !it.completed && dateLt it.dueDate today then
    some ⟨it.id, it.title, it.dueDate.isoformat,
      (today.toordinal : Int) - (it.dueDate.toordinal : Int)⟩
  else none

theorem overdue_loop_eq_filterMap (today : Date) (items : List CItem) :
    overdue_loop today items = items.filterMap (overdueOf today) := by
  induction items with
  | nil => rfl
  | cons it rest ih =>
    by_cases h : (!it.completed && dateLt it.dueDate today) = true <;>
      simp [overdue_loop, overdueOf, List.filterMap_cons, h, ih]

theorem overdue_loop_pos (today : Date) (items : List CItem) (hT : today.Valid)
    (hI : ∀ it ∈ items, it.dueDate.Valid) :
    ∀ e ∈ overdue_loop today items, 1 ≤ e.daysOverdue := by
  induction items with
  | nil => intro e he; simp [overdue_loop] at he
  | cons it rest ih =>
    intro e he
    unfold overdue_loop at he
    split at he
    · rename_i h
      simp only [Bool.and_eq_true, Bool.not_eq_true'] at h
      rcases List.mem_cons.mp he with rfl | he'
      · have hlt := toordinal_lt_toordinal it.dueDate today (hI it (by simp)) hT h.2
        show 1 ≤ (today.toordinal : Int) - (it.dueDate.toordinal : Int)
        omega
      · exact ih (fun x hx => hI x (List.mem_cons_of_mem _ hx)) e he'
    · exact ih (fun x hx => hI x (List.mem_cons_of_mem _ hx)) e he

theorem overdue_loop_drop_completed (today : Date) (items : List CItem) :
    overdue_loop today (items.filter (fun it => !it.completed)) = overdue_loop today items := by
  induction items with
  | nil => rfl
  | cons it rest ih =>
    by_cases hc : it.completed
    · simp [List.filter_cons, hc, ih, overdue_loop]
    · simp only [List.filter_cons, hc]
      simp only [Bool.not_false, if_pos]
      unfold overdue_loop
      simp [hc, ih]

theorem at_risk_loop_tiers (today : Date) (w : Int) (items : List CItem) :
    ∀ e ∈ at_risk_loop today w items,
      0 ≤ e.daysRemaining ∧ e.daysRemaining ≤ w ∧
      (e.daysRemaining = 0 → e.risk = "high") ∧
      (1 ≤ e.daysRemaining → e.daysRemaining ≤ 2 → e.risk = "medium") ∧
      (3 ≤ e.daysRemaining → e.risk = "low") := by
  induction items with
  | nil => intro e he; simp [at_risk_loop] at he
  | cons it rest ih =>
    intro e he
    unfold at_risk_loop at he
    split at he
    · exact ih e he
    · dsimp only at he
      split at he
      · rename_i hwin
        simp only [Bool.and_eq_true, decide_eq_true_eq] at hwin
        rcases List.mem_cons.mp he with rfl | he'
        · dsimp only
          refine ⟨hwin.1, hwin.2, ?_, ?_, ?_⟩
          · intro h0
            rw [if_pos h0]
          · intro h1 h2
            rw [if_neg (by omega), if_pos (by omega)]
          · intro h3
            rw [if_neg (by omega), if_neg (by omega)]
        · exact ih e he'
      · exact ih e he

theorem at_risk_loop_drop_completed (today : Date) (w : Int) (items : List CItem) :
    at_risk_loop today w (items.filter (fun it => !it.completed)) = at_risk_loop today w items := by
  induction items with
  | nil => rfl
  | cons it rest ih =>
    by_cases hc : it.completed
    · simp only [List.filter_cons, hc]
      conv_rhs => unfold at_risk_loop
      simp [hc, ih]
    · simp only [List.filter_cons, hc]
      simp only [Bool.not_false, if_pos]
      conv_lhs => unfold at_risk_loop
      conv_rhs => unfold at_risk_loop
      simp [hc, ih]

end OverdueRisk

/-! ## Aggregator lemmas -/

namespace WeeklySummary

/-- Number of included items carrying category `c`. -/
def catCount (c : String) (l : List SItem) : Nat :=
  (l.filter (fun it => it.category = c)).length

/-- Duration sum of included items carrying category `c`. -/
def catDur (c : String) (l : List SItem) : Int :=
  ((l.filter (fun it => it.category = c)).map (fun it => it.durationMin)).sum

theorem lookupCat_nil (c : String) : lookupCat c [] = none := rfl

theorem lookupCat_cons (c k : String) (nd : Nat × Int) (rest : List (String × Nat × Int)) :
    lookupCat c ((k, nd) :: rest) = if k = c then some nd else lookupCat c rest := by
  unfold lookupCat
  rw [List.find?_cons]
  by_cases h : k = c <;> simp [h]

theorem bump_nil (cat : String) (dur : Int) : bump cat dur [] = [(cat, 1, dur)] := rfl

theorem bump_cons (cat k : String) (n : Nat) (d dur : Int) (rest : List (String × Nat × Int)) :
    bump cat dur ((k, n, d) :: rest) =
      if k = cat then (k, n + 1, d + dur) :: rest else (k, n, d) :: bump cat dur rest := rfl

theorem lookupCat_bump (cat c : String) (dur : Int) (bc : List (String × Nat × Int)) :
    lookupCat c (bump cat dur bc) =
      if c = cat then
        match lookupCat c bc with
        | some nd => some (nd.1 + 1, nd.2 + dur)
        | none => some (1, dur)
      else lookupCat c bc := by
  induction bc with
  | nil =>
    rw [bump_nil, lookupCat_cons]
    rcases eq_or_ne c cat with rfl | h
    · rw [if_pos rfl, if_pos rfl, lookupCat_nil]
    · rw [if_neg (Ne.symm h), if_neg h, lookupCat_nil]
  | cons p rest ih =>
    obtain ⟨k, n, d⟩ := p
    rw [bump_cons]
    by_cases hk : k = cat
    · subst hk
      rw [if_pos rfl, lookupCat_cons, lookupCat_cons]
      rcases eq_or_ne c k with rfl | hc
      · rw [if_pos rfl, if_pos rfl, if_pos rfl]
      · rw [if_neg (Ne.symm hc), if_neg (Ne.symm hc), if_neg hc]
    · rw [if_neg hk, lookupCat_cons, ih, lookupCat_cons]
      rcases eq_or_ne c k with rfl | hc
      · rw [if_pos rfl, if_pos rfl, if_neg hk]
      · rw [if_neg (Ne.symm hc), if_neg (Ne.symm hc)]

end WeeklySummary

namespace WeeklySummary

theorem summary_fold_count (week_start week_end : Date) (items : List SItem) :
    ∀ tc td bc, (summary_fold week_start week_end items (tc, td, bc)).1
      = tc + (items.filter (inWindow week_start week_end)).length := by
  induction items with
  | nil => intro tc td bc; simp [summary_fold]
  | cons it rest ih =>
    intro tc td bc
    unfold summary_fold
    by_cases h : inWindow week_start week_end it = true
    · rw [if_pos h, ih, List.filter_cons, if_pos h]
      simp [Nat.add_comm, Nat.add_assoc, Nat.add_left_comm]
    · rw [if_neg h, ih, List.filter_cons, if_neg h]

theorem summary_fold_dur (week_start week_end : Date) (items : List SItem) :
    ∀ tc td bc, (summary_fold week_start week_end items (tc, td, bc)).2.1
      = td + ((items.filter (inWindow week_start week_end)).map (fun it => it.durationMin)).sum := by
  induction items with
  | nil => intro tc td bc; simp [summary_fold]
  | cons it rest ih =>
    intro tc td bc
    unfold summary_fold
    by_cases h : inWindow week_start week_end it = true
    · rw [if_pos h, ih, List.filter_cons, if_pos h]
      simp
      ring
    · rw [if_neg h, ih, List.filter_cons, if_neg h]

theorem summary_fold_lookup (week_start week_end : Date) (items : List SItem) :
    ∀ tc td bc (c : String),
      lookupCat c (summary_fold week_start week_end items (tc, td, bc)).2.2
      = match lookupCat c bc with
        | some nd => some (nd.1 + catCount c (items.filter (inWindow week_start week_end)),
                           nd.2 + catDur c (items.filter (inWindow week_start week_end)))
        | none =>
          if catCount c (items.filter (inWindow week_start week_end)) = 0 then none
          else some (catCount c (items.filter (inWindow week_start week_end)),
                     catDur c (items.filter (inWindow week_start week_end))) := by
  induction items with
  | nil =>
    intro tc td bc c
    simp only [summary_fold, List.filter_nil]
    cases h : lookupCat c bc with
    | none => simp [catCount, catDur]
    | some nd => simp [catCount, catDur]
  | cons it rest ih =>
    intro tc td bc c
    unfold summary_fold
    by_cases h : inWindow week_start week_end it = true
    · rw [if_pos h, ih, List.filter_cons, if_pos h]
      by_cases hcat : it.category = c
      · have hcc : catCount c (it :: rest.filter (inWindow week_start week_end))
            = catCount c (rest.filter (inWindow week_start week_end)) + 1 := by
          simp [catCount, List.filter_cons, hcat, Nat.add_comm]
        have hcd : catDur c (it :: rest.filter (inWindow week_start week_end))
            = it.durationMin + catDur c (rest.filter (inWindow week_start week_end)) := by
          simp [catDur, List.filter_cons, hcat]
        rw [lookupCat_bump, if_pos (show c = it.category from hcat.symm)]
        cases hbc : lookupCat c bc with
        | some nd =>
          simp only [hcc, hcd]
          refine congrArg some (Prod.ext ?_ ?_)
          · show nd.1 + 1 + _ = nd.1 + (_ + 1)
            omega
          · show nd.2 + it.durationMin + _ = nd.2 + (it.durationMin + _)
            ring
        | none =>
          simp only [hcc, hcd]
          rw [if_neg (by omega)]
          refine congrArg some (Prod.ext ?_ ?_)
          · show 1 + _ = _ + 1
            omega
          · show it.durationMin + _ = it.durationMin + _
            rfl
      · have hcc : catCount c (it :: rest.filter (inWindow week_start week_end))
            = catCount c (rest.filter (inWindow week_start week_end)) := by
          simp [catCount, List.filter_cons, hcat]
        have hcd : catDur c (it :: rest.filter (inWindow week_start week_end))
            = catDur c (rest.filter (inWindow week_start week_end)) := by
          simp [catDur, List.filter_cons, hcat]
        rw [lookupCat_bump, if_neg (fun hcc2 : c = it.category => hcat hcc2.symm), hcc, hcd]
    · rw [if_neg h, ih, List.filter_cons, if_neg h]

end WeeklySummary

/-! ## Endpoint lemmas -/

namespace OverdueRisk

theorem validate_item_ok (idx : Nat) (kvs : List (String × JVal)) (iv tv dv cv : JVal) (d : Date)
    (hid : dictFind kvs ("id") = some iv)
    (htitle : dictFind kvs ("title") = some tv)
    (hdue : dictFind kvs ("dueDate") = some dv)
    (hcomp : dictFind kvs ("completed") = some cv)
    (hparse : parse_date_yyyy_mm_dd (pyStr dv) = some d) :
    validate_item idx (.jdict kvs) = .ok ⟨pyStr iv, pyStr tv, d, pyTruthy cv⟩ := by
  unfold validate_item
  simp [hid, htitle, hdue, hcomp, dictGetD, hparse]

theorem overdue_loop_eq_filter_map (today : Date) (items : List CItem) :
    overdue_loop today items
      = (items.filter (fun it => !it.completed && dateLt it.dueDate today)).map
          (fun it => (⟨it.id, it.title, it.dueDate.isoformat,
            (today.toordinal : Int) - (it.dueDate.toordinal : Int)⟩ : OverdueEntry)) := by
  induction items with
  | nil => rfl
  | cons it rest ih =>
    by_cases h : (!it.completed && dateLt it.dueDate today) = true <;>
      simp [overdue_loop, List.filter_cons, h, ih]

theorem find_overdue_no_crash (sysToday : Date) (data : RiskRequest) :
    (find_overdue sysToday data).isCrash = false := by
  unfold find_overdue
  cases h : _validate_items data.items <;> rfl

theorem validate_items_go_first_error (idx : Nat) (v : JVal) (vs : List JVal) (e : String)
    (h : validate_item idx v = .error e) :
    validate_items_go idx (v :: vs) = .error e := by
  unfold validate_items_go
  rw [h]

theorem find_at_risk_default_window (sysToday : Date) (itemsJ todayJ : Option JVal)
    (items : List CItem) (hv : _validate_items itemsJ = .ok items) :
    find_at_risk sysToday ⟨itemsJ, todayJ, none⟩
      = .ok ⟨(_parse_today sysToday todayJ).isoformat,
             at_risk_loop (_parse_today sysToday todayJ) 5 items⟩ := by
  unfold find_at_risk
  simp only [hv]

end OverdueRisk

namespace WeeklySummary

theorem weekly_summary_no_crash (sysToday : Date) (data : WeeklyRequest) :
    (weekly_summary sysToday data).isCrash = false := by
  unfold weekly_summary
  cases h : _validate_items data.items <;> rfl

theorem validate_sitems_go_first_error (idx : Nat) (v : JVal) (vs : List JVal) (e : String)
    (h : validate_sitem idx v = .error e) :
    validate_sitems_go idx (v :: vs) = .error e := by
  unfold validate_sitems_go
  rw [h]

end WeeklySummary

/-! ## Claim theorems -/

/-- C1: for a `generateAgenda` request with tasks
`[{id: 1, title: "Run", durationMinutes: 60}]` (wire key `duration_minutes`)
and workday window 09:00 to 17:00, the handler returns exactly one block from
09:00 to 10:00 for that task and an empty unscheduled list. -/
theorem c1_single_task_agenda (d : JVal) (hd : pyTruthy d = true) :
    DailyAgenda.generate_agenda
      ⟨some d, some (.jstr "09:00"), some (.jstr "17:00"),
        some (.jlist [.jdict [("id", .jint 1), ("title", .jstr "Run"),
          ("duration_minutes", .jint 60)]])⟩
    = .ok ⟨d, [⟨.jint 1, .jstr "Run", "09:00", "10:00"⟩], []⟩ := by
  unfold DailyAgenda.generate_agenda
  simp only [Option.getD_some, hd, Bool.not_true, Bool.false_or]
  rfl

/-- C1 witness: the request dated 2025-01-06. -/
theorem c1_single_task_agenda_witness :
    pyTruthy (.jstr "2025-01-06") = true ∧
    DailyAgenda.generate_agenda
      ⟨some (.jstr "2025-01-06"), some (.jstr "09:00"), some (.jstr "17:00"),
        some (.jlist [.jdict [("id", .jint 1), ("title", .jstr "Run"),
          ("duration_minutes", .jint 60)]])⟩
    = .ok ⟨.jstr "2025-01-06", [⟨.jint 1, .jstr "Run", "09:00", "10:00"⟩], []⟩ :=
  ⟨rfl, c1_single_task_agenda (.jstr "2025-01-06") rfl⟩

/-- C2: a positive-duration task whose candidate end `cursor + duration`
exceeds the workday end is emitted as unscheduled and the cursor is not
advanced (the remaining tasks are scheduled exactly as if the skipped task
were absent); in particular tasks `[(A, 480), (B, 30)]` in a 09:00 to 09:31
window yield A unscheduled and B scheduled 09:00 to 09:30. -/
theorem c2_nonfitting_skip_keeps_cursor
    (day_end current : Int) (t : JVal) (ts : List JVal)
    (kvs : List (String × JVal)) (duration : Int) (i ti : JVal)
    (bs : List DailyAgenda.Block) (us : List DailyAgenda.UnschedTask)
    (ht : t = .jdict kvs)
    (hdur : pyInt (dictGetD kvs ("duration_minutes") (.jint 0)) = some duration)
    (hpos : 0 < duration)
    (hnofit : day_end < current + duration)
    (hi : dictFind kvs ("id") = some i)
    (hti : dictFind kvs ("title") = some ti)
    (hrec : DailyAgenda.schedule_aux day_end ts current = .ok (bs, us)) :
    DailyAgenda.schedule_aux day_end (t :: ts) current = .ok (bs, ⟨i, ti⟩ :: us) ∧
    DailyAgenda.schedule_tasks ("09:00") ("09:31")
      [.jdict [("id", .jstr "A"), ("title", .jstr "A"), ("duration_minutes", .jint 480)],
       .jdict [("id", .jstr "B"), ("title", .jstr "B"), ("duration_minutes", .jint 30)]]
      = .ok ([⟨.jstr "B", .jstr "B", 540, 570⟩], [⟨.jstr "A", .jstr "A"⟩]) ∧
    DailyAgenda.fmtTime 540 = "09:00" ∧ DailyAgenda.fmtTime 570 = "09:30" :=
  ⟨DailyAgenda.schedule_aux_skip day_end t ts current kvs duration i ti
      ht hdur hpos hnofit hi hti bs us hrec,
    rfl, rfl, rfl⟩

/-- C2 witness: the 480-minute task A at the head of the 09:00 to 09:31
window (cursor 540, end 571). -/
theorem c2_nonfitting_skip_keeps_cursor_witness :
    DailyAgenda.schedule_aux 571
      [.jdict [("id", .jstr "A"), ("title", .jstr "A"), ("duration_minutes", .jint 480)],
       .jdict [("id", .jstr "B"), ("title", .jstr "B"), ("duration_minutes", .jint 30)]] 540
    = .ok ([⟨.jstr "B", .jstr "B", 540, 570⟩], [⟨.jstr "A", .jstr "A"⟩]) :=
  (c2_nonfitting_skip_keeps_cursor 571 540
    (.jdict [("id", .jstr "A"), ("title", .jstr "A"), ("duration_minutes", .jint 480)])
    [.jdict [("id", .jstr "B"), ("title", .jstr "B"), ("duration_minutes", .jint 30)]]
    [("id", .jstr "A"), ("title", .jstr "A"), ("duration_minutes", .jint 480)]
    480 (.jstr "A") (.jstr "A")
    [⟨.jstr "B", .jstr "B", 540, 570⟩] []
    rfl rfl (by omega) (by omega) rfl rfl rfl).1

/-- C3: on every successful `schedule_tasks` run, every emitted block lies
inside the workday window (`start ≥ workdayStart`, `end ≤ workdayEnd`), has
positive width, and consecutive blocks do not overlap (each block starts at
or after the previous block's end). -/
theorem c3_blocks_in_window_no_overlap
    (workday_start workday_end : String) (ds de : Nat) (tasks : List JVal)
    (bs : List DailyAgenda.Block) (us : List DailyAgenda.UnschedTask)
    (hs : DailyAgenda.parse_time workday_start = some ds)
    (he : DailyAgenda.parse_time workday_end = some de)
    (h : DailyAgenda.schedule_tasks workday_start workday_end tasks = .ok (bs, us)) :
    (∀ b ∈ bs, (ds : Int) ≤ b.start ∧ b.start < b.stop ∧ b.stop ≤ (de : Int)) ∧
    List.Chain' (fun x y => x.stop ≤ y.start) bs := by
  unfold DailyAgenda.schedule_tasks at h
  rw [hs, he] at h
  exact DailyAgenda.schedule_aux_invariant (de : Int) tasks (ds : Int) bs us h

/-- C3 witness: two tasks in a 09:00 to 17:00 window. -/
theorem c3_blocks_in_window_no_overlap_witness :
    (∀ b ∈ [(⟨.jint 1, .jstr "Run", 540, 600⟩ : DailyAgenda.Block),
            ⟨.jint 2, .jstr "Lift", 600, 630⟩],
      (540 : Int) ≤ b.start ∧ b.start < b.stop ∧ b.stop ≤ (1020 : Int)) ∧
    List.Chain' (fun x y => x.stop ≤ y.start)
      [(⟨.jint 1, .jstr "Run", 540, 600⟩ : DailyAgenda.Block),
       ⟨.jint 2, .jstr "Lift", 600, 630⟩] :=
  c3_blocks_in_window_no_overlap ("09:00") ("17:00") 540 1020
    [.jdict [("id", .jint 1), ("title", .jstr "Run"), ("duration_minutes", .jint 60)],
     .jdict [("id", .jint 2), ("title", .jstr "Lift"), ("duration_minutes", .jint 30)]]
    _ _ rfl rfl rfl

/-- C9: when the parsed workday end is not later than the workday start, a
successful `schedule_tasks` run emits no blocks and reports exactly the
positive-duration tasks, in order, as unscheduled. -/
theorem c9_degenerate_window_all_unscheduled
    (workday_start workday_end : String) (ds de : Nat) (tasks : List JVal)
    (bs : List DailyAgenda.Block) (us : List DailyAgenda.UnschedTask)
    (hs : DailyAgenda.parse_time workday_start = some ds)
    (he : DailyAgenda.parse_time workday_end = some de)
    (hw : de ≤ ds)
    (h : DailyAgenda.schedule_tasks workday_start workday_end tasks = .ok (bs, us)) :
    bs = [] ∧ us = tasks.filterMap DailyAgenda.unschedOf := by
  unfold DailyAgenda.schedule_tasks at h
  rw [hs, he] at h
  exact DailyAgenda.schedule_aux_degenerate (de : Int) tasks (ds : Int)
    (by exact_mod_cast hw) bs us h

/-- C9 witness: a 17:00 to 09:00 window with one 30-minute task. -/
theorem c9_degenerate_window_all_unscheduled_witness :
    ([] : List DailyAgenda.Block) = [] ∧
    [(⟨.jint 1, .jstr "Run"⟩ : DailyAgenda.UnschedTask)]
      = [JVal.jdict [("id", .jint 1), ("title", .jstr "Run"),
          ("duration_minutes", .jint 30)]].filterMap DailyAgenda.unschedOf :=
  c9_degenerate_window_all_unscheduled ("17:00") ("09:00") 1020 540
    [.jdict [("id", .jint 1), ("title", .jstr "Run"), ("duration_minutes", .jint 30)]]
    _ _ rfl rfl (by omega) rfl

/-- C4 counterexample: with valid (empty) items and
`riskWindowDays = "soon"`, `int()` raises and the handler crashes (HTTP 500)
instead of silently substituting the default 5. -/
theorem c4_unparsable_window_crashes :
    OverdueRisk.find_at_risk ⟨2025, 6, 1⟩
      ⟨some (.jlist []), none, some (.jstr "soon")⟩
    = .crash ("TypeError or ValueError: int() on riskWindowDays") := rfl

/-- C4 amended: when `riskWindowDays` is absent the default 5 is silently
substituted and the request succeeds; an unparsable value, however, raises an
uncaught `TypeError`/`ValueError` (HTTP 500) rather than being defaulted. -/
theorem c4_absent_window_defaults_to_five
    (sysToday : Date) (itemsJ todayJ : Option JVal)
    (items : List OverdueRisk.CItem)
    (hv : OverdueRisk._validate_items itemsJ = .ok items) :
    OverdueRisk.find_at_risk sysToday ⟨itemsJ, todayJ, none⟩
      = .ok ⟨(OverdueRisk._parse_today sysToday todayJ).isoformat,
             OverdueRisk.at_risk_loop (OverdueRisk._parse_today sysToday todayJ) 5 items⟩ :=
  OverdueRisk.find_at_risk_default_window sysToday itemsJ todayJ items hv

/-- C4 witness: one pending item, `riskWindowDays` absent. -/
theorem c4_absent_window_defaults_to_five_witness :
    OverdueRisk.find_at_risk ⟨2025, 6, 1⟩
      ⟨some (.jlist [.jdict [("id", .jint 1), ("title", .jstr "X"),
        ("dueDate", .jstr "2025-01-07"), ("completed", .jbool false)]]),
       some (.jstr "2025-01-05"), none⟩
    = .ok ⟨Date.isoformat ⟨2025, 1, 5⟩,
           OverdueRisk.at_risk_loop ⟨2025, 1, 5⟩ 5 [⟨"1", "X", ⟨2025, 1, 7⟩, false⟩]⟩ :=
  c4_absent_window_defaults_to_five ⟨2025, 6, 1⟩
    (some (.jlist [.jdict [("id", .jint 1), ("title", .jstr "X"),
      ("dueDate", .jstr "2025-01-07"), ("completed", .jbool false)]]))
    (some (.jstr "2025-01-05"))
    [⟨"1", "X", ⟨2025, 1, 7⟩, false⟩] rfl

/-- C5: every entry of the at-risk list satisfies
`0 ≤ daysRemaining ≤ riskWindowDays` and carries exactly the tier
`0 → high`, `1..2 → medium`, `3..riskWindowDays → low`; in particular for
window 5, days remaining 0, 2 and 3 map to high, medium and low. -/
theorem c5_risk_tier_boundaries (today : Date) (w : Int) (items : List OverdueRisk.CItem) :
    (∀ e ∈ OverdueRisk.at_risk_loop today w items,
      (0 ≤ e.daysRemaining ∧ e.daysRemaining ≤ w) ∧
      (e.daysRemaining = 0 → e.risk = "high") ∧
      (1 ≤ e.daysRemaining → e.daysRemaining ≤ 2 → e.risk = "medium") ∧
      (3 ≤ e.daysRemaining → e.daysRemaining ≤ w → e.risk = "low")) ∧
    OverdueRisk.at_risk_loop ⟨2025, 1, 5⟩ 5
      [⟨"1", "a", ⟨2025, 1, 5⟩, false⟩, ⟨"2", "b", ⟨2025, 1, 7⟩, false⟩,
       ⟨"3", "c", ⟨2025, 1, 8⟩, false⟩]
    = [⟨"1", "a", "2025-01-05", 0, "high"⟩, ⟨"2", "b", "2025-01-07", 2, "medium"⟩,
       ⟨"3", "c", "2025-01-08", 3, "low"⟩] := by
  refine ⟨?_, rfl⟩
  intro e he
  obtain ⟨h1, h2, h3, h4, h5⟩ := OverdueRisk.at_risk_loop_tiers today w items e he
  exact ⟨⟨h1, h2⟩, h3, h4, fun h3' _ => h5 h3'⟩

/-- C5 witness: the medium-tier entry at two days remaining. -/
theorem c5_risk_tier_boundaries_witness :
    (⟨"2", "b", "2025-01-07", 2, "medium"⟩ : OverdueRisk.AtRiskEntry).risk = "medium" :=
  ((c5_risk_tier_boundaries ⟨2025, 1, 5⟩ 5
      [⟨"1", "a", ⟨2025, 1, 5⟩, false⟩, ⟨"2", "b", ⟨2025, 1, 7⟩, false⟩,
       ⟨"3", "c", ⟨2025, 1, 8⟩, false⟩]).1
    ⟨"2", "b", "2025-01-07", 2, "medium"⟩ (by decide)).2.2.1 (by decide) (by decide)

/-- C6: `find_overdue`'s loop returns, in input order, exactly the items
with `completed = false` and `dueDate < today`, each carrying
`daysOverdue = today − dueDate` in days, and for valid dates every such
entry has `daysOverdue ≥ 1`; completed items and items due today or later
never appear. -/
theorem c6_overdue_exactly_late_items (today : Date) (items : List OverdueRisk.CItem) :
    OverdueRisk.overdue_loop today items
      = (items.filter (fun it => !it.completed && dateLt it.dueDate today)).map
          (fun it => (⟨it.id, it.title, it.dueDate.isoformat,
            (today.toordinal : Int) - (it.dueDate.toordinal : Int)⟩ : OverdueRisk.OverdueEntry)) ∧
    (today.Valid → (∀ it ∈ items, it.dueDate.Valid) →
      ∀ e ∈ OverdueRisk.overdue_loop today items, 1 ≤ e.daysOverdue) :=
  ⟨OverdueRisk.overdue_loop_eq_filter_map today items,
   fun hT hI => OverdueRisk.overdue_loop_pos today items hT hI⟩

/-- C6 witness: the spec's end-to-end example 2 (due 2025-01-01, today
2025-01-05, 4 days overdue). -/
theorem c6_overdue_exactly_late_items_witness :
    OverdueRisk.overdue_loop ⟨2025, 1, 5⟩ [⟨"1", "X", ⟨2025, 1, 1⟩, false⟩]
      = [⟨"1", "X", "2025-01-01", 4⟩] ∧
    (1 : Int) ≤ (⟨"1", "X", "2025-01-01", 4⟩ : OverdueRisk.OverdueEntry).daysOverdue :=
  ⟨by
    have h := (c6_overdue_exactly_late_items ⟨2025, 1, 5⟩ [⟨"1", "X", ⟨2025, 1, 1⟩, false⟩]).1
    simpa using h,
   (c6_overdue_exactly_late_items ⟨2025, 1, 5⟩ [⟨"1", "X", ⟨2025, 1, 1⟩, false⟩]).2
    (by decide) (by decide) ⟨"1", "X", "2025-01-01", 4⟩ (by decide)⟩

/-- C7: the weekly aggregation includes an item exactly when the date
component of its `completedAt` lies in the inclusive window
`[weekStart, weekEnd]` (`inWindow`); `totalCompleted` is the count of
included items, `totalDurationMin` their duration sum, and `byCategory`
maps exactly the categories observed among included items to their
per-category count and duration sum (no zero-filled categories).  The final
conjunct shows the boundary: an item completed on `weekEnd` (2025-01-12)
counts, one completed the day after does not. -/
theorem c7_weekly_window_and_aggregation (week_start week_end : Date)
    (items : List WeeklySummary.SItem) :
    (WeeklySummary.summary_fold week_start week_end items (0, 0, [])).1
      = (items.filter (WeeklySummary.inWindow week_start week_end)).length ∧
    (WeeklySummary.summary_fold week_start week_end items (0, 0, [])).2.1
      = ((items.filter (WeeklySummary.inWindow week_start week_end)).map
          (fun it => it.durationMin)).sum ∧
    (∀ c : String,
      WeeklySummary.lookupCat c (WeeklySummary.summary_fold week_start week_end items (0, 0, [])).2.2
      = if WeeklySummary.catCount c (items.filter (WeeklySummary.inWindow week_start week_end)) = 0
        then none
        else some (WeeklySummary.catCount c (items.filter (WeeklySummary.inWindow week_start week_end)),
                   WeeklySummary.catDur c (items.filter (WeeklySummary.inWindow week_start week_end)))) ∧
    WeeklySummary.summary_fold ⟨2025, 1, 6⟩ ⟨2025, 1, 12⟩
      [⟨"1", "", ⟨⟨2025, 1, 12⟩, 23, 59, 0⟩, 30, "Running"⟩,
       ⟨"2", "", ⟨⟨2025, 1, 13⟩, 0, 0, 0⟩, 45, "Running"⟩] (0, 0, [])
      = (1, 30, [("Running", 1, 30)]) := by
  refine ⟨by rw [WeeklySummary.summary_fold_count week_start week_end items 0 0 []]; omega,
    by rw [WeeklySummary.summary_fold_dur week_start week_end items 0 0 []]; ring, ?_, rfl⟩
  intro c
  have h := WeeklySummary.summary_fold_lookup week_start week_end items 0 0 [] c
  rwa [WeeklySummary.lookupCat_nil] at h

/-- C8 counterexample: a `generateAgenda` request whose only task entry
lacks `id` crashes the handler with an uncaught `KeyError` instead of
returning a structured validation error. -/
theorem c8_malformed_task_crashes :
    DailyAgenda.generate_agenda
      ⟨some (.jstr "2025-01-06"), some (.jstr "09:00"), some (.jstr "17:00"),
        some (.jlist [.jdict [("title", .jstr "Run"), ("duration_minutes", .jint 60)]])⟩
    = .crash ("KeyError") := rfl

/-- C8 amended: `findOverdue` and `summarizeWeek` always return either a
success or a single structured validation error, never an uncaught
exception, and both (like `findAtRisk`, which shares the classifier's
validator) reject the whole batch at the first invalid item; but
`generateAgenda` does not validate task entries (a malformed one raises an
uncaught exception), and `findAtRisk` crashes on an unparsable
`riskWindowDays`. -/
theorem c8_structured_errors_where_validated :
    (∀ (sysToday : Date) (data : OverdueRisk.RiskRequest),
      (OverdueRisk.find_overdue sysToday data).isCrash = false) ∧
    (∀ (sysToday : Date) (data : WeeklySummary.WeeklyRequest),
      (WeeklySummary.weekly_summary sysToday data).isCrash = false) ∧
    (∀ (idx : Nat) (v : JVal) (vs : List JVal) (e : String),
      OverdueRisk.validate_item idx v = .error e →
      OverdueRisk.validate_items_go idx (v :: vs) = .error e) ∧
    (∀ (idx : Nat) (v : JVal) (vs : List JVal) (e : String),
      WeeklySummary.validate_sitem idx v = .error e →
      WeeklySummary.validate_sitems_go idx (v :: vs) = .error e) :=
  ⟨OverdueRisk.find_overdue_no_crash, WeeklySummary.weekly_summary_no_crash,
   OverdueRisk.validate_items_go_first_error, WeeklySummary.validate_sitems_go_first_error⟩

/-- C8 witness: a non-object first item fails the whole classifier batch
with the index-naming message, later items unread. -/
theorem c8_structured_errors_where_validated_witness :
    OverdueRisk.validate_items_go 0
      [.jint 7, .jdict [("id", .jint 1), ("title", .jstr "X"),
        ("dueDate", .jstr "2025-01-01"), ("completed", .jbool false)]]
    = .error ("Item at index 0 must be an object.") :=
  c8_structured_errors_where_validated.2.2.1 0 (.jint 7)
    [.jdict [("id", .jint 1), ("title", .jstr "X"),
      ("dueDate", .jstr "2025-01-01"), ("completed", .jbool false)]]
    ("Item at index 0 must be an object.") rfl

/-- C10: the classifier coerces `completed` with Python truthiness rather
than parsing it: a validated item's flag is `bool(value)`, a string is
truthy exactly when nonempty (so `"false"` is truthy), and items whose flag
is truthy contribute nothing to either the overdue or the at-risk output. -/
theorem c10_completed_is_truthiness :
    (∀ (idx : Nat) (kvs : List (String × JVal)) (iv tv dv cv : JVal) (d : Date),
      dictFind kvs ("id") = some iv →
      dictFind kvs ("title") = some tv →
      dictFind kvs ("dueDate") = some dv →
      dictFind kvs ("completed") = some cv →
      parse_date_yyyy_mm_dd (pyStr dv) = some d →
      OverdueRisk.validate_item idx (.jdict kvs) = .ok ⟨pyStr iv, pyStr tv, d, pyTruthy cv⟩) ∧
    (∀ s : String, pyTruthy (.jstr s) = !s.isEmpty) ∧
    pyTruthy (.jstr "false") = true ∧
    (∀ (today : Date) (items : List OverdueRisk.CItem),
      OverdueRisk.overdue_loop today (items.filter (fun it => !it.completed))
        = OverdueRisk.overdue_loop today items) ∧
    (∀ (today : Date) (w : Int) (items : List OverdueRisk.CItem),
      OverdueRisk.at_risk_loop today w (items.filter (fun it => !it.completed))
        = OverdueRisk.at_risk_loop today w items) :=
  ⟨OverdueRisk.validate_item_ok, fun _ => rfl, rfl,
   OverdueRisk.overdue_loop_drop_completed, OverdueRisk.at_risk_loop_drop_completed⟩

/-- C10 witness: an item whose `completed` field is the string `"false"`
validates with flag `true`. -/
theorem c10_completed_is_truthiness_witness :
    OverdueRisk.validate_item 0
      (.jdict [("id", .jint 1), ("title", .jstr "X"),
        ("dueDate", .jstr "2025-01-01"), ("completed", .jstr "false")])
    = .ok ⟨"1", "X", ⟨2025, 1, 1⟩, true⟩ :=
  c10_completed_is_truthiness.1 0
    [("id", .jint 1), ("title", .jstr "X"),
     ("dueDate", .jstr "2025-01-01"), ("completed", .jstr "false")]
    (.jint 1) (.jstr "X") (.jstr "2025-01-01") (.jstr "false") ⟨2025, 1, 1⟩
    rfl rfl rfl rfl rfl
